import Mathlib

/-!
Verification development for the filtered, deterministic tarball exporter
(export_tarball.py) of the chromium-tarballs repository.

The Python source is shallowly embedded: the entry-classification logic of
MyTarFile.add becomes the pure function classify, the metadata normalizer
MyTarFile.__filter becomes pyFilter, the recursive tarfile add walk becomes
addEntry/addChildren over a filesystem tree model, and main becomes pyMain
over an explicit environment recording command-line options, filesystem
contents, the timestamp file and the compression subprocess exit code.
-/

/-! ## String helpers mirroring the Python primitives used by the source -/

/-- Whether pat occurs as a contiguous run inside l. -/
def infixOfList (pat : List Char) : List Char → Bool
  | [] => pat.isEmpty
  | c :: rest => pat.isPrefixOf (c :: rest) || infixOfList pat rest

/-- Python substring test: pat in s. -/
def containsSub (s pat : String) : Bool := infixOfList pat.data s.data

/-- Python str.startswith. -/
def strStartsWith (s p : String) : Bool := p.data.isPrefixOf s.data

/-- Python str.endswith. -/
def strEndsWith (s p : String) : Bool := p.data.isSuffixOf s.data

/-- Lexicographic comparison on code points, as Python sorted() uses on str. -/
def charListLe : List Char → List Char → Bool
  | [], _ => true
  | _ :: _, [] => false
  | a :: as, b :: bs => if a = b then charListLe as bs else decide (a < b)

/-- String comparison used to model sorted(os.listdir(...)). -/
def strLe (a b : String) : Bool := charListLe a.data b.data

/-- os.path.split (posix): split at the last slash; the head keeps a run of
leading slashes but otherwise loses trailing slashes. -/
def splitPath (p : String) : String × String :=
  let l := p.data
  let tl := (l.reverse.takeWhile (fun c => !(c = '/' : Bool))).reverse
  let hd := l.take (l.length - tl.length)
  let hd2 := if hd.all (fun c => (c = '/' : Bool)) then hd
             else (hd.reverse.dropWhile (fun c => (c = '/' : Bool))).reverse
  (⟨hd2⟩, ⟨tl⟩)

/-- os.path.join for a relative second component. -/
def pathJoin (a b : String) : String := a ++ "/" ++ b

/-- Relative path of a child: os.path.relpath(join(root, c), src) when the
parent's relative path is already known ("." denotes the source root itself). -/
def joinRel (r c : String) : String := if r = "." then c else r ++ "/" ++ c

/-- Path components of a slash-separated path (used only to state what a
path-component test would be, in contrast to the raw substring test). -/
def splitCompAux : List Char → List Char → List String
  | [], acc => [⟨acc.reverse⟩]
  | '/' :: rest, acc => (⟨acc.reverse⟩ : String) :: splitCompAux rest []
  | c :: rest, acc => splitCompAux rest (c :: acc)

def pathComponents (s : String) : List String := splitCompAux s.data []

/-! ## The rule set (module-level constants of export_tarball.py) -/

def nonessential_dirs : List String :=
  [ "build/linux/debian_bullseye_amd64-sysroot",
    "build/linux/debian_bullseye_i386-sysroot",
    "third_party/blink/tools",
    "third_party/blink/web_tests",
    "third_party/hunspell_dictionaries",
    "third_party/hunspell/tests",
    "third_party/instrumented_libs",
    "third_party/jdk/current",
    "third_party/jdk/extras",
    "third_party/liblouis/src/tests/braille-specs",
    "third_party/llvm-build",
    "third_party/xdg-utils/tests",
    "v8/test" ]

def ESSENTIAL_FILES : List String :=
  [ "chrome/test/data/webui/i18n_process_css_test.html",
    "chrome/test/data/webui/mojo/foobar.mojom",
    "chrome/test/data/webui/web_ui_test.mojom",
    "v8/test/torque/test-torque.tq" ]

def ESSENTIAL_GIT_DIRS : List String := ["third_party/rust-src/"]

def TEST_DIRS : List String :=
  [ "chrome/test/data",
    "content/test/data",
    "courgette/testdata",
    "extensions/test/data",
    "media/test/data",
    "native_client/src/trusted/service_runtime/testdata",
    "third_party/breakpad/breakpad/src/processor/testdata",
    "third_party/catapult/tracing/test_data" ]

/-- set(nonessential_dirs) | set(TEST_DIRS): the trim rule only asks whether
any member matches, so the union is modelled as list concatenation. -/
def trimDirs : List String := nonessential_dirs ++ TEST_DIRS

/-! ## Entries and classification (MyTarFile.add, lines 86-130) -/

/-- One filesystem object as seen by MyTarFile.add: name is the path passed
to add, relName is os.path.relpath(name, src_dir); isLink is os.path.islink,
targetExists is os.path.exists (which follows symlinks), isFile is
os.path.isfile. -/
structure Entry where
  name : String
  relName : String
  isLink : Bool
  targetExists : Bool
  isFile : Bool
deriving DecidableEq

/-- file_name of os.path.split(name). -/
def fileNameOf (e : Entry) : String := (splitPath e.name).2

/-- file_path of os.path.split(name). -/
def filePathOf (e : Entry) : String := (splitPath e.name).1

inductive Decision where
  | INCLUDE
  | EXCLUDE
deriving DecidableEq

/-- keep_file of MyTarFile.add (lines 120-122). -/
def keep_file (rel fn : String) : Bool :=
  containsSub fn ".gyp" || containsSub fn ".gn" || containsSub fn ".isolate" ||
  containsSub fn ".grd" || strEndsWith fn ".pydeps" || ESSENTIAL_FILES.contains rel

/-- The decision logic of MyTarFile.add: EXCLUDE means the method returns
without emitting anything, INCLUDE means it falls through to
tarfile.TarFile.add. remove is the remove_nonessential_files flag. -/
def classify (remove : Bool) (e : Entry) : Decision :=
  if e.isLink && !e.targetExists then Decision.EXCLUDE
  else if fileNameOf e = "__pycache__" || strEndsWith (fileNameOf e) ".pyc" then
    Decision.EXCLUDE
  else if (fileNameOf e = ".svn" || fileNameOf e = "out") &&
          !(containsSub (filePathOf e) "node_modules") then
    Decision.EXCLUDE
  else if fileNameOf e = ".git" &&
          !(ESSENTIAL_GIT_DIRS.any fun d => strStartsWith e.relName d) then
    Decision.EXCLUDE
  else if remove && containsSub e.name "ChangeLog" then Decision.EXCLUDE
  else if remove && !(keep_file e.relName (fileNameOf e)) &&
          (trimDirs.any fun d => strStartsWith e.relName d) && e.isFile then
    Decision.EXCLUDE
  else Decision.INCLUDE

example : splitPath "/src/a/out" = ("/src/a", "out") := by decide
example : splitPath "/b" = ("/", "b") := by decide
example : splitPath "b" = ("", "b") := by decide
example : classify true ⟨"/s/v8/test/a.cc", "v8/test/a.cc", false, true, true⟩ =
    Decision.EXCLUDE := by decide
example : classify true ⟨"/s/v8/test/a.gyp", "v8/test/a.gyp", false, true, true⟩ =
    Decision.INCLUDE := by decide
example : classify false ⟨"/s/v8/test/a.cc", "v8/test/a.cc", false, true, true⟩ =
    Decision.INCLUDE := by decide
example : classify true ⟨"/s/x/.git", "x/.git", false, true, false⟩ =
    Decision.EXCLUDE := by decide
example : classify true
    ⟨"/s/third_party/rust-src/v/.git", "third_party/rust-src/v/.git", false, true, false⟩ =
    Decision.INCLUDE := by decide
example : pathComponents "/s/a/out" = ["", "s", "a", "out"] := by decide

/-! ## Tar metadata and the normalizer (MyTarFile.__filter, lines 77-84) -/

inductive EntryType where
  | reg
  | dirEntry
  | sym
deriving DecidableEq

/-- The tarfile.TarInfo fields the tool touches or that its rules depend on. -/
structure TarInfo where
  name : String
  typ : EntryType
  mode : Nat
  mtime : Int
  uid : Nat
  gid : Nat
  uname : String
  gname : String
deriving DecidableEq

/-- MyTarFile.__filter: fix the timestamp, zero the ownership, and force the
owner-write permission bit (stat.S_IWUSR = 0o200 = 128). -/
def pyFilter (ts : Int) (ti : TarInfo) : TarInfo :=
  { ti with mtime := ts, mode := ti.mode ||| 128,
            uid := 0, gid := 0, uname := "0", gname := "0" }

/-! ## Filesystem tree model and the recursive walk of tarfile.TarFile.add -/

/-- Original on-disk metadata of one filesystem object. -/
structure FileMeta where
  mode : Nat
  mtime : Int
  uid : Nat
  gid : Nat
  uname : String
  gname : String
deriving DecidableEq

mutual
inductive FsNode where
  | file (name : String) (meta : FileMeta)
  | dirNode (name : String) (meta : FileMeta) (children : FsList)
  | symlink (name : String) (meta : FileMeta) (targetExists : Bool) (targetIsFile : Bool)
inductive FsList where
  | nil
  | cons (head : FsNode) (tail : FsList)
end

def nodeName : FsNode → String
  | FsNode.file n _ => n
  | FsNode.dirNode n _ _ => n
  | FsNode.symlink n _ _ _ => n

def metaOf : FsNode → FileMeta
  | FsNode.file _ m => m
  | FsNode.dirNode _ m _ => m
  | FsNode.symlink _ m _ _ => m

def typeOf : FsNode → EntryType
  | FsNode.file _ _ => EntryType.reg
  | FsNode.dirNode _ _ _ => EntryType.dirEntry
  | FsNode.symlink _ _ _ _ => EntryType.sym

/-- The Entry that MyTarFile.add observes for a node reached at absolute path
full with relative path rel: os.path.islink / os.path.exists (follows the
link) / os.path.isfile (follows the link). -/
def nodeEntry (full rel : String) : FsNode → Entry
  | FsNode.file _ _ => ⟨full, rel, false, true, true⟩
  | FsNode.dirNode _ _ _ => ⟨full, rel, false, true, false⟩
  | FsNode.symlink _ _ te tif => ⟨full, rel, true, te, te && tif⟩

/-- The raw TarInfo for a node before __filter runs, archived under arc. -/
def rawInfo (arc : String) (n : FsNode) : TarInfo :=
  { name := arc, typ := typeOf n,
    mode := (metaOf n).mode, mtime := (metaOf n).mtime,
    uid := (metaOf n).uid, gid := (metaOf n).gid,
    uname := (metaOf n).uname, gname := (metaOf n).gname }

/-- Insertion into a name-sorted sibling list. -/
def insertFs (c : FsNode) : FsList → FsList
  | FsList.nil => FsList.cons c FsList.nil
  | FsList.cons d ds =>
      if strLe (nodeName c) (nodeName d) then FsList.cons c (FsList.cons d ds)
      else FsList.cons d (insertFs c ds)

/-- Name-sorting of a sibling list, modelling sorted(os.listdir(name)) in
tarfile.TarFile.add. -/
def sortFs : FsList → FsList
  | FsList.nil => FsList.nil
  | FsList.cons c cs => insertFs c (sortFs cs)

mutual
/-- Recursively sort every sibling list of a tree by name. The walk below is
run on the sorted tree, which models the sorted(os.listdir(...)) enumeration
tarfile.TarFile.add performs at every directory. -/
def sortTree : FsNode → FsNode
  | FsNode.file n m => FsNode.file n m
  | FsNode.symlink n m te tif => FsNode.symlink n m te tif
  | FsNode.dirNode n m cs => FsNode.dirNode n m (sortFs (sortEach cs))
def sortEach : FsList → FsList
  | FsList.nil => FsList.nil
  | FsList.cons c cs => FsList.cons (sortTree c) (sortEach cs)
end

mutual
/-- One MyTarFile.add call on the object at absolute path full (relative path
rel, archive name arc): if classify says EXCLUDE nothing is emitted; otherwise
the object's record is emitted and, for a directory, tarfile.TarFile.add
re-enters MyTarFile.add on every child. Records are the raw TarInfos; __filter
is applied by runArchive. -/
def addEntry (remove : Bool) (full rel arc : String) : FsNode → List TarInfo
  | FsNode.file nm m =>
      match classify remove (nodeEntry full rel (FsNode.file nm m)) with
      | Decision.EXCLUDE => []
      | Decision.INCLUDE => [rawInfo arc (FsNode.file nm m)]
  | FsNode.symlink nm m te tif =>
      match classify remove (nodeEntry full rel (FsNode.symlink nm m te tif)) with
      | Decision.EXCLUDE => []
      | Decision.INCLUDE => [rawInfo arc (FsNode.symlink nm m te tif)]
  | FsNode.dirNode nm m cs =>
      match classify remove (nodeEntry full rel (FsNode.dirNode nm m cs)) with
      | Decision.EXCLUDE => []
      | Decision.INCLUDE =>
          rawInfo arc (FsNode.dirNode nm m cs) :: addChildren remove full rel arc cs
def addChildren (remove : Bool) (full rel arc : String) : FsList → List TarInfo
  | FsList.nil => []
  | FsList.cons c cs =>
      addEntry remove (pathJoin full (nodeName c)) (joinRel rel (nodeName c))
          (pathJoin arc (nodeName c)) c
        ++ addChildren remove full rel arc cs
end

/-- The archive stream produced by one archive.add(root) call: walk the
name-sorted tree and normalize every emitted record with __filter. -/
def runArchive (remove : Bool) (ts : Int) (full rel arc : String) (t : FsNode) :
    List TarInfo :=
  (addEntry remove full rel arc (sortTree t)).map (pyFilter ts)

/-- Erase the metadata that __filter overwrites anyway (ownership, names,
mtime), keeping the mode bits the output does depend on. -/
def stripMeta (m : FileMeta) : FileMeta :=
  { mode := m.mode, mtime := 0, uid := 0, gid := 0, uname := "", gname := "" }

mutual
def stripNode : FsNode → FsNode
  | FsNode.file n m => FsNode.file n (stripMeta m)
  | FsNode.symlink n m te tif => FsNode.symlink n (stripMeta m) te tif
  | FsNode.dirNode n m cs => FsNode.dirNode n (stripMeta m) (stripList cs)
def stripList : FsList → FsList
  | FsList.nil => FsList.nil
  | FsList.cons c cs => FsList.cons (stripNode c) (stripList cs)
end

def meta0 : FileMeta := ⟨420, 1111, 1000, 1000, "dev", "dev"⟩

example :
    addEntry false "/s/a" "a" "b/a" (FsNode.file "a" meta0) =
      [rawInfo "b/a" (FsNode.file "a" meta0)] := by decide
example :
    runArchive false 7 "/s" "." "b"
        (FsNode.dirNode "s" meta0
          (FsList.cons (FsNode.file "x.c" meta0) FsList.nil)) =
      [pyFilter 7 (rawInfo "b" (FsNode.dirNode "s" meta0
          (FsList.cons (FsNode.file "x.c" meta0) FsList.nil))),
       pyFilter 7 (rawInfo "b/x.c" (FsNode.file "x.c" meta0))] := by decide

/-! ## The orchestrator (main, lines 131-189) -/

/-- Python int() on the timestamp file contents: optional surrounding
whitespace, an optional sign, then a nonempty digit run. -/
def isSpaceChar (c : Char) : Bool :=
  c = ' ' || c = '\t' || c = '\n' || c = '\r'

def trimChars (l : List Char) : List Char :=
  ((l.dropWhile isSpaceChar).reverse.dropWhile isSpaceChar).reverse

def digitsToNatAux : List Char → Nat → Option Nat
  | [], acc => some acc
  | c :: cs, acc =>
      if c.isDigit then digitsToNatAux cs (acc * 10 + (c.toNat - 48)) else none

def digitsToNat : List Char → Option Nat
  | [] => none
  | c :: cs => digitsToNatAux (c :: cs) 0

def pyInt (s : String) : Option Int :=
  match trimChars s.data with
  | '+' :: ds => (digitsToNat ds).map (fun n => (n : Int))
  | '-' :: ds => (digitsToNat ds).map (fun n => -(n : Int))
  | ds => (digitsToNat ds).map (fun n => (n : Int))

/-- Observable side effects of a run other than the archive stream itself. -/
inductive Effect where
  | message (s : String)
  | createOutput (path : String)
deriving DecidableEq

/-- Exceptions main can raise: os.path.exists(None) raises TypeError, a
failing open of the timestamp file raises an IOError (OSError), int() on
non-numeric contents raises ValueError. -/
inductive PyError where
  | typeError
  | ioError
  | valueError
deriving DecidableEq

deriving instance DecidableEq for Except

structure RunResult where
  effects : List Effect
  archive : List TarInfo
  exit : Except PyError Nat
deriving DecidableEq

/-- The environment a run observes: parsed command line, the filesystem (an
optional tree at each absolute path), the timestamp file contents (none
when opening it fails) and the exit status of the xz subprocess. -/
structure Env where
  args : List String
  basename : Option String
  removeNonessentialFiles : Bool
  testData : Bool
  verbose : Bool
  srcDir : Option String
  version : Option String
  fs : String → Option FsNode
  timestampContents : Option String
  xzExitCode : Nat

/-- Python truthiness test of an optparse string option: None and the empty
string are falsy. -/
def pyFalsy : Option String → Bool
  | none => true
  | some s => s = ""

/-- os.path.exists: follows symlinks, so a dangling link does not exist. -/
def pathExists (env : Env) (p : String) : Bool :=
  match env.fs p with
  | none => false
  | some (FsNode.symlink _ _ te _) => te
  | some _ => true

/-- os.path.isdir. -/
def isDirAt (env : Env) (p : String) : Bool :=
  match env.fs p with
  | some (FsNode.dirNode _ _ _) => true
  | _ => false

/-- output_basename = options.basename or os.path.basename(args[0]). -/
def outputBasename (env : Env) (arg0 : String) : String :=
  match env.basename with
  | none => (splitPath arg0).2
  | some b => if b = "" then (splitPath arg0).2 else b

/-- The archive records one test directory contributes in test-data mode. -/
def dirArchive (env : Env) (src base : String) (ts : Int) (d : String) :
    List TarInfo :=
  match env.fs (pathJoin src d) with
  | some n => runArchive env.removeNonessentialFiles ts (pathJoin src d) d
      (pathJoin base d) n
  | none => []

/-- The for-loop of the test-data branch (lines 170-178): a configured test
directory that is not a directory on disk yields a skip message and is passed
over; an existing one is archived under basename/dir. -/
def testDataLoop (env : Env) (src base : String) (ts : Int) :
    List String → List Effect × List TarInfo
  | [] => ([], [])
  | d :: ds =>
      match env.fs (pathJoin src d) with
      | some (FsNode.dirNode nm m cs) =>
          ((testDataLoop env src base ts ds).1,
           runArchive env.removeNonessentialFiles ts (pathJoin src d) d
               (pathJoin base d) (FsNode.dirNode nm m cs) ++
             (testDataLoop env src base ts ds).2)
      | _ =>
          (Effect.message ("\"" ++ pathJoin src d ++ "\" not present; skipping.") ::
             (testDataLoop env src base ts ds).1,
           (testDataLoop env src base ts ds).2)

/-- Lines 183-189: after the archive is closed, a nonzero xz exit prints a
failure message and returns 1; otherwise the run returns 0. -/
def finishRun (env : Env) (effs : List Effect) (archive : List TarInfo) :
    RunResult :=
  if env.xzExitCode ≠ 0 then
    ⟨effs ++ [Effect.message "xz -9 failed!"], archive, Except.ok 1⟩
  else ⟨effs, archive, Except.ok 0⟩

/-- Lines 154-182 of main, reached once the argument and source-directory
checks passed: the output file is opened (created) first, then the timestamp
file is read and parsed, then either the test-data loop or the full-tree
archive.add runs. -/
def pyMain2 (env : Env) (arg0 src : String) : RunResult :=
  let fullname := arg0 ++ ".tar.xz"
  let base := outputBasename env arg0
  match env.timestampContents with
  | none => ⟨[Effect.createOutput fullname], [], Except.error PyError.ioError⟩
  | some c =>
      match pyInt c with
      | none => ⟨[Effect.createOutput fullname], [], Except.error PyError.valueError⟩
      | some ts =>
          if env.testData then
            let p := testDataLoop env src base ts TEST_DIRS
            finishRun env (Effect.createOutput fullname :: p.1) p.2
          else
            finishRun env [Effect.createOutput fullname]
              (match env.fs src with
               | some n => runArchive env.removeNonessentialFiles ts src "." base n
               | none => [])

/-- main (lines 131-189). The early validations run before the output file is
opened; a missing --src-dir makes os.path.exists(None) raise TypeError. -/
def pyMain (env : Env) : RunResult :=
  match env.args with
  | [arg0] =>
      if pyFalsy env.version then
        ⟨[Effect.message "A version number must be provided via the --version option."],
         [], Except.ok 1⟩
      else
        match env.srcDir with
        | none => ⟨[], [], Except.error PyError.typeError⟩
        | some src =>
            if pathExists env src then pyMain2 env arg0 src
            else
              ⟨[Effect.message ("Cannot find the src directory " ++ src)],
               [], Except.ok 1⟩
  | _ =>
      ⟨[Effect.message "You must provide only one argument: output file name",
        Effect.message "(without .tar.xz extension)."],
       [], Except.ok 1⟩

/-- Process exit status of sys.exit(main(sys.argv[1:])): main's return value,
or 1 when an uncaught exception terminates the interpreter. -/
def processExit (env : Env) : Nat :=
  match (pyMain env).exit with
  | Except.ok n => n
  | Except.error _ => 1

/-- The single build timestamp: the parse of the timestamp file under the
source root (build/util/LASTCHANGE.committime). -/
def buildTimestamp (env : Env) : Option Int :=
  env.timestampContents.bind pyInt

example : pyInt "1700000000\n" = some 1700000000 := by decide
example : pyInt "zzz" = none := by decide
example : pyInt "" = none := by decide

/-! ## Concrete entries, trees and environments used in examples -/

/-- A file matching an always-keep marker (.gn in the name) under a trimmed
prefix, whose path also contains the ChangeLog substring. -/
def cEx1 : Entry :=
  ⟨"/src/third_party/blink/tools/ChangeLog.gn",
   "third_party/blink/tools/ChangeLog.gn", false, true, true⟩

/-- An essentialFiles member under the trimmed prefix v8/test. -/
def wEnt1 : Entry :=
  ⟨"/src/v8/test/torque/test-torque.tq", "v8/test/torque/test-torque.tq",
   false, true, true⟩

/-- A directory named out under the trimmed prefix v8/test. -/
def cEx2 : Entry := ⟨"/src/v8/test/out", "v8/test/out", false, true, false⟩

/-- An ordinary directory under the trimmed prefix v8/test. -/
def wEnt2 : Entry := ⟨"/src/v8/test/mjsunit", "v8/test/mjsunit", false, true, false⟩

/-- A dangling symlink at the path of an essentialFiles member. -/
def wEnt3 : Entry :=
  ⟨"/src/v8/test/torque/test-torque.tq", "v8/test/torque/test-torque.tq",
   true, false, false⟩

/-- A directory named out whose parent directory name merely contains the
characters node_modules without having a node_modules component. -/
def cEx7 : Entry :=
  ⟨"/src/a/xnode_modulesx/out", "a/xnode_modulesx/out", false, true, false⟩

/-- A .svn directory outside any node_modules path. -/
def wEnt7a : Entry := ⟨"/src/a/.svn", "a/.svn", false, true, false⟩

/-- An out directory below a genuine node_modules directory. -/
def wEnt7b : Entry :=
  ⟨"/src/node_modules/m/out", "node_modules/m/out", false, true, false⟩

/-- A regular file under v8/testsuite, a sibling of v8/test that merely
starts with the characters of the trimmed prefix v8/test. -/
def wEnt10 : Entry :=
  ⟨"/src/v8/testsuite/foo.cc", "v8/testsuite/foo.cc", false, true, true⟩

def treeC4 : FsNode :=
  FsNode.dirNode "s" meta0 (FsList.cons (FsNode.file "a.txt" meta0) FsList.nil)

/-- A baseline well-formed environment; the examples below override fields. -/
def envBase : Env :=
  { args := ["out"], basename := none, removeNonessentialFiles := false,
    testData := false, verbose := false, srcDir := some "/s",
    version := some "1.0", fs := fun _ => none, timestampContents := none,
    xzExitCode := 0 }

/-- A full-mode run over a one-file tree with a readable timestamp file. -/
def envC4 : Env :=
  { envBase with
    fs := fun p => if p = "/s" then some treeC4 else none,
    timestampContents := some "1700000000\n" }

def rC4 : TarInfo := pyFilter 1700000000 (rawInfo "out/a.txt" (FsNode.file "a.txt" meta0))

/-- Valid arguments and source directory, but an unreadable timestamp file. -/
def envC5 : Env :=
  { envBase with
    fs := fun p => if p = "/s" then some (FsNode.dirNode "s" meta0 FsList.nil) else none }

/-- A run in which the xz subprocess exits with code 2. -/
def envC6 : Env :=
  { envC5 with timestampContents := some "123", xzExitCode := 2 }

/-- A test-data run where only chrome/test/data exists on disk. -/
def envC8 : Env :=
  { envBase with
    testData := true, timestampContents := some "99",
    fs := fun p =>
      if p = "/s" then some (FsNode.dirNode "s" meta0 FsList.nil)
      else if p = "/s/chrome/test/data" then
        some (FsNode.dirNode "data" meta0
          (FsList.cons (FsNode.file "f.bin" meta0) FsList.nil))
      else none }

def metaA : FileMeta := ⟨493, 1, 1000, 1000, "alice", "users"⟩
def metaB : FileMeta := ⟨493, 999, 0, 0, "bob", "wheel"⟩

/-- Two copies of the same tree checked out by different users at different
times: names and permission bits agree, ownership and mtimes differ. -/
def tA : FsNode :=
  FsNode.dirNode "s" metaA (FsList.cons (FsNode.file "a" metaA) FsList.nil)

def tB : FsNode :=
  FsNode.dirNode "s" metaB (FsList.cons (FsNode.file "a" metaB) FsList.nil)

/-- No Effect.createOutput ever appears among the run's effects. -/
def noOutputCreated (env : Env) : Prop :=
  ∀ p, Effect.createOutput p ∉ (pyMain env).effects

/-! ## Theorems -/

/-- C3: a symlink whose resolved target does not exist is classified EXCLUDE
regardless of trim mode and before every other rule can apply. -/
theorem c3_dangling_symlink_excluded (remove : Bool) (e : Entry)
    (hl : e.isLink = true) (ht : e.targetExists = false) :
    classify remove e = Decision.EXCLUDE := by
  simp [classify, hl, ht]

/-- Witness for C3 at a dangling symlink sitting exactly at an essentialFiles
path, under a trimmed prefix, in both trim modes. -/
theorem c3_dangling_symlink_excluded_witness :
    wEnt3.isLink = true ∧ wEnt3.targetExists = false ∧
    ESSENTIAL_FILES.contains wEnt3.relName = true ∧
    classify true wEnt3 = Decision.EXCLUDE ∧
    classify false wEnt3 = Decision.EXCLUDE :=
  ⟨rfl, rfl, by decide,
   c3_dangling_symlink_excluded true wEnt3 rfl rfl,
   c3_dangling_symlink_excluded false wEnt3 rfl rfl⟩

/-- C1 counterexample: cEx1 is a regular file under the trimmed prefix
third_party/blink/tools whose base name carries the always-keep marker .gn,
yet a trimmed run classifies it EXCLUDE, because its path contains the
substring ChangeLog and that rule runs before the keep-file check. -/
theorem c1_counterexample :
    keep_file cEx1.relName (fileNameOf cEx1) = true ∧
    containsSub (fileNameOf cEx1) ".gn" = true ∧
    strStartsWith cEx1.relName "third_party/blink/tools" = true ∧
    ("third_party/blink/tools" ∈ nonessential_dirs) ∧
    cEx1.isLink = false ∧ cEx1.isFile = true ∧
    classify true cEx1 = Decision.EXCLUDE := by
  decide

/-- C1 as amended: in a trimmed run, an entry whose relative path is in
essentialFiles or whose base name carries an always-keep marker is classified
INCLUDE — regardless of any nonessentialDirs/testDirs prefix of its relative
path — provided no earlier rule fires: it is not a dangling symlink, its base
name is not a bytecode-cache marker, not .svn/out outside a node_modules
path, not .git outside essentialGitMetadataDirs, and its path does not
contain the substring ChangeLog. -/
theorem c1_amended_keep_markers_win (e : Entry)
    (h1 : (e.isLink && !e.targetExists) = false)
    (h2 : (fileNameOf e = "__pycache__" || strEndsWith (fileNameOf e) ".pyc") = false)
    (h3 : ((fileNameOf e = ".svn" || fileNameOf e = "out") &&
           !(containsSub (filePathOf e) "node_modules")) = false)
    (h4 : (fileNameOf e = ".git" &&
           !(ESSENTIAL_GIT_DIRS.any fun d => strStartsWith e.relName d)) = false)
    (h5 : containsSub e.name "ChangeLog" = false)
    (hkeep : keep_file e.relName (fileNameOf e) = true) :
    classify true e = Decision.INCLUDE := by
  simp [classify, h1, h2, h3, h4, h5, hkeep]

/-- Witness for the amended C1: the essentialFiles member
v8/test/torque/test-torque.tq sits under the trimmed prefix v8/test and is
still included. -/
theorem c1_amended_keep_markers_win_witness :
    keep_file wEnt1.relName (fileNameOf wEnt1) = true ∧
    strStartsWith wEnt1.relName "v8/test" = true ∧
    ("v8/test" ∈ nonessential_dirs) ∧
    classify true wEnt1 = Decision.INCLUDE :=
  ⟨by decide, by decide, by decide,
   c1_amended_keep_markers_win wEnt1 (by decide) (by decide) (by decide)
     (by decide) (by decide) (by decide)⟩

/-- C2 counterexample: the directory v8/test/out lies under the trimmed
prefix v8/test but is classified EXCLUDE (by the .svn/out rule), so not every
directory under a trimmed prefix is INCLUDEd. -/
theorem c2_counterexample :
    cEx2.isFile = false ∧ cEx2.isLink = false ∧
    strStartsWith cEx2.relName "v8/test" = true ∧
    ("v8/test" ∈ trimDirs) ∧
    classify true cEx2 = Decision.EXCLUDE := by
  decide

/-- C2 as amended: the trim rule itself never excludes a directory — any
entry that is not a regular file and passes the non-trim rules (dangling
symlink, bytecode cache, .svn/out, .git, ChangeLog) is classified INCLUDE
even when its relative path starts with a trimmed prefix; and an included
directory is written as a directory entry and descended into, each child
being re-classified. -/
theorem c2_amended_dirs_survive_trim :
    (∀ (remove : Bool) (e : Entry),
      e.isFile = false →
      (e.isLink && !e.targetExists) = false →
      (fileNameOf e = "__pycache__" || strEndsWith (fileNameOf e) ".pyc") = false →
      ((fileNameOf e = ".svn" || fileNameOf e = "out") &&
        !(containsSub (filePathOf e) "node_modules")) = false →
      (fileNameOf e = ".git" &&
        !(ESSENTIAL_GIT_DIRS.any fun d => strStartsWith e.relName d)) = false →
      (remove && containsSub e.name "ChangeLog") = false →
      classify remove e = Decision.INCLUDE) ∧
    (∀ (remove : Bool) (full rel arc nm : String) (m : FileMeta) (cs : FsList),
      classify remove (nodeEntry full rel (FsNode.dirNode nm m cs)) = Decision.INCLUDE →
      addEntry remove full rel arc (FsNode.dirNode nm m cs) =
        rawInfo arc (FsNode.dirNode nm m cs) :: addChildren remove full rel arc cs) := by
  constructor
  · intro remove e hf h1 h2 h3 h4 h5
    simp [classify, h1, h2, h3, h4, h5, hf]
  · intro remove full rel arc nm m cs h
    simp [addEntry, h]

/-- Witness for the amended C2: the directory v8/test/mjsunit under the
trimmed prefix v8/test is included in a trimmed run, and an included
directory node emits its own record followed by its walked children. -/
theorem c2_amended_dirs_survive_trim_witness :
    wEnt2.isFile = false ∧
    strStartsWith wEnt2.relName "v8/test" = true ∧
    classify true wEnt2 = Decision.INCLUDE ∧
    addEntry false "/s/d" "d" "b/d" (FsNode.dirNode "d" meta0 FsList.nil) =
      rawInfo "b/d" (FsNode.dirNode "d" meta0 FsList.nil) ::
        addChildren false "/s/d" "d" "b/d" FsList.nil :=
  ⟨rfl, by decide,
   c2_amended_dirs_survive_trim.1 true wEnt2 (by decide) (by decide) (by decide)
     (by decide) (by decide) (by decide),
   c2_amended_dirs_survive_trim.2 false "/s/d" "d" "b/d" "d" meta0 FsList.nil
     (by decide)⟩

/-- C7 counterexample: the directory a/xnode_modulesx/out has base name out
and no node_modules path component anywhere in its ancestry, so the claim
requires EXCLUDE, but the code performs a raw substring test on the dirname,
finds node_modules inside xnode_modulesx, and the entry falls through to be
classified INCLUDE. -/
theorem c7_counterexample :
    fileNameOf cEx7 = "out" ∧
    ("node_modules" ∈ pathComponents cEx7.name → False) ∧
    ("node_modules" ∈ pathComponents cEx7.relName → False) ∧
    classify false cEx7 = Decision.INCLUDE := by
  decide

/-- C7 as amended: an entry named .svn or out is excluded unless the
directory portion of its path contains the literal substring node_modules (a
raw substring test, not a path-component test); when the substring is
present this rule does not exclude it and, if no later rule fires either,
the entry is included. -/
theorem c7_amended_svn_out_rule (remove : Bool) (e : Entry)
    (h1 : (e.isLink && !e.targetExists) = false)
    (h2 : (fileNameOf e = "__pycache__" || strEndsWith (fileNameOf e) ".pyc") = false)
    (h4 : fileNameOf e = ".svn" ∨ fileNameOf e = "out") :
    (containsSub (filePathOf e) "node_modules" = false →
      classify remove e = Decision.EXCLUDE) ∧
    (containsSub (filePathOf e) "node_modules" = true →
      (remove && containsSub e.name "ChangeLog") = false →
      (remove && !(keep_file e.relName (fileNameOf e)) &&
        (trimDirs.any fun d => strStartsWith e.relName d) && e.isFile) = false →
      classify remove e = Decision.INCLUDE) := by
  have hgit : fileNameOf e = ".git" → False := by
    rcases h4 with h | h <;> rw [h] <;> intro hg <;> exact absurd hg (by decide)
  constructor
  · intro hnm
    rcases h4 with h | h <;> simp [classify, h1, h2, h, hnm]
  · intro hnm h5 h6
    rcases h4 with h | h <;> rw [h] at h6 <;>
      simp [classify, h1, h2, h, hnm, h5, h6,
        (by decide : strEndsWith ".svn" ".pyc" = false),
        (by decide : strEndsWith "out" ".pyc" = false)]

/-- Witness for the amended C7: a/.svn (no node_modules in the dirname) is
excluded; node_modules/m/out is not excluded by this rule and ends up
included. -/
theorem c7_amended_svn_out_rule_witness :
    containsSub (filePathOf wEnt7a) "node_modules" = false ∧
    classify false wEnt7a = Decision.EXCLUDE ∧
    containsSub (filePathOf wEnt7b) "node_modules" = true ∧
    classify false wEnt7b = Decision.INCLUDE :=
  ⟨by decide,
   (c7_amended_svn_out_rule false wEnt7a (by decide) (by decide)
       (Or.inl (by decide))).1 (by decide),
   by decide,
   (c7_amended_svn_out_rule false wEnt7b (by decide) (by decide)
       (Or.inr (by decide))).2 (by decide) (by decide) (by decide)⟩

/-- C10: the trimmed-prefix test is a raw string-prefix comparison on the
relative path: in trim mode any non-kept regular file whose relative path
begins with the characters of a trimmed prefix is excluded (whether or not
it lies inside the named directory), provided no earlier rule applies. -/
theorem c10_trim_is_raw_string_prefix (e : Entry) (d : String)
    (hd : d ∈ trimDirs)
    (h1 : (e.isLink && !e.targetExists) = false)
    (h2 : (fileNameOf e = "__pycache__" || strEndsWith (fileNameOf e) ".pyc") = false)
    (h3 : ((fileNameOf e = ".svn" || fileNameOf e = "out") &&
           !(containsSub (filePathOf e) "node_modules")) = false)
    (h4 : (fileNameOf e = ".git" &&
           !(ESSENTIAL_GIT_DIRS.any fun d2 => strStartsWith e.relName d2)) = false)
    (h5 : containsSub e.name "ChangeLog" = false)
    (hkeep : keep_file e.relName (fileNameOf e) = false)
    (hfile : e.isFile = true)
    (hpre : strStartsWith e.relName d = true) :
    classify true e = Decision.EXCLUDE := by
  have hany : (trimDirs.any fun d2 => strStartsWith e.relName d2) = true :=
    List.any_eq_true.2 ⟨d, hd, hpre⟩
  simp [classify, h1, h2, h3, h4, h5, hkeep, hfile, hany]

/-- Witness for C10: v8/testsuite/foo.cc is not inside the directory v8/test
(its relative path neither equals v8/test nor starts with the directory
separator form v8/test/), yet it begins with the characters v8/test and is
excluded in a trimmed run. -/
theorem c10_trim_is_raw_string_prefix_witness :
    strStartsWith wEnt10.relName "v8/test" = true ∧
    strStartsWith wEnt10.relName "v8/test/" = false ∧
    (wEnt10.relName = "v8/test" → False) ∧
    classify true wEnt10 = Decision.EXCLUDE :=
  ⟨by decide, by decide, by decide,
   c10_trim_is_raw_string_prefix wEnt10 "v8/test" (by decide) (by decide)
     (by decide) (by decide) (by decide) (by decide) (by decide) (by decide)
     (by decide)⟩

/-! ### Reduction lemmas for the orchestrator -/

theorem finishRun_archive (env : Env) (effs : List Effect) (a : List TarInfo) :
    (finishRun env effs a).archive = a := by
  unfold finishRun; split <;> rfl

theorem finishRun_exit_ok (env : Env) (effs : List Effect) (a : List TarInfo)
    (h : env.xzExitCode = 0) : (finishRun env effs a).exit = Except.ok 0 := by
  simp [finishRun, h]

theorem finishRun_exit_fail (env : Env) (effs : List Effect) (a : List TarInfo)
    (h : env.xzExitCode ≠ 0) : (finishRun env effs a).exit = Except.ok 1 := by
  simp [finishRun, h]

theorem finishRun_msg_fail (env : Env) (effs : List Effect) (a : List TarInfo)
    (h : env.xzExitCode ≠ 0) :
    Effect.message "xz -9 failed!" ∈ (finishRun env effs a).effects := by
  simp [finishRun, h]

theorem finishRun_mem_of (env : Env) (effs : List Effect) (a : List TarInfo)
    (x : Effect) (h : x ∈ effs) : x ∈ (finishRun env effs a).effects := by
  unfold finishRun; split <;> simp [h]

theorem mem_runArchive_record {remove : Bool} {ts : Int} {full rel arc : String}
    {n : FsNode} {r : TarInfo} (h : r ∈ runArchive remove ts full rel arc n) :
    ∃ x, r = pyFilter ts x := by
  unfold runArchive at h
  obtain ⟨x, -, h2⟩ := List.mem_map.1 h
  exact ⟨x, h2.symm⟩

theorem testDataLoop_record (env : Env) (src base : String) (ts : Int) :
    ∀ (l : List String) (r : TarInfo),
      r ∈ (testDataLoop env src base ts l).2 → ∃ x, r = pyFilter ts x
  | [], r, h => absurd h (List.not_mem_nil r)
  | d :: ds, r, h => by
      rw [testDataLoop] at h
      rcases hfs : env.fs (pathJoin src d) with _ | n
      · rw [hfs] at h
        exact testDataLoop_record env src base ts ds r h
      · cases n with
        | file nm m =>
            rw [hfs] at h
            exact testDataLoop_record env src base ts ds r h
        | symlink nm m te tif =>
            rw [hfs] at h
            exact testDataLoop_record env src base ts ds r h
        | dirNode nm m cs =>
            rw [hfs] at h
            rcases List.mem_append.1 h with h1 | h2
            · exact mem_runArchive_record h1
            · exact testDataLoop_record env src base ts ds r h2

theorem pyMain_usage (env : Env) (h : env.args.length ≠ 1) :
    pyMain env =
      ⟨[Effect.message "You must provide only one argument: output file name",
        Effect.message "(without .tar.xz extension)."], [], Except.ok 1⟩ := by
  unfold pyMain
  rcases ha : env.args with _ | ⟨a, _ | ⟨b, rest⟩⟩
  · rfl
  · rw [ha] at h; simp at h
  · rfl

theorem pyMain_version (env : Env) (a : String) (ha : env.args = [a])
    (hv : pyFalsy env.version = true) :
    pyMain env =
      ⟨[Effect.message "A version number must be provided via the --version option."],
       [], Except.ok 1⟩ := by
  unfold pyMain; rw [ha]; simp [hv]

theorem pyMain_srcNone (env : Env) (a : String) (ha : env.args = [a])
    (hv : pyFalsy env.version = false) (hs : env.srcDir = none) :
    pyMain env = ⟨[], [], Except.error PyError.typeError⟩ := by
  unfold pyMain; rw [ha]; simp [hv, hs]

theorem pyMain_srcMissing (env : Env) (a s : String) (ha : env.args = [a])
    (hv : pyFalsy env.version = false) (hs : env.srcDir = some s)
    (he : pathExists env s = false) :
    pyMain env =
      ⟨[Effect.message ("Cannot find the src directory " ++ s)], [], Except.ok 1⟩ := by
  unfold pyMain; rw [ha]; simp [hv, hs, he]

theorem pyMain_run (env : Env) (a s : String) (ha : env.args = [a])
    (hv : pyFalsy env.version = false) (hs : env.srcDir = some s)
    (he : pathExists env s = true) : pyMain env = pyMain2 env a s := by
  unfold pyMain; rw [ha]; simp [hv, hs, he]

theorem pyMain2_ts_fail (env : Env) (a s : String)
    (hc : env.timestampContents = none) :
    pyMain2 env a s =
      ⟨[Effect.createOutput (a ++ ".tar.xz")], [], Except.error PyError.ioError⟩ := by
  simp [pyMain2, hc]

theorem pyMain2_parse_fail (env : Env) (a s c : String)
    (hc : env.timestampContents = some c) (hp : pyInt c = none) :
    pyMain2 env a s =
      ⟨[Effect.createOutput (a ++ ".tar.xz")], [], Except.error PyError.valueError⟩ := by
  simp [pyMain2, hc, hp]

theorem pyMain2_testData (env : Env) (a s c : String) (t : Int)
    (hc : env.timestampContents = some c) (hp : pyInt c = some t)
    (htd : env.testData = true) :
    pyMain2 env a s =
      finishRun env
        (Effect.createOutput (a ++ ".tar.xz") ::
          (testDataLoop env s (outputBasename env a) t TEST_DIRS).1)
        (testDataLoop env s (outputBasename env a) t TEST_DIRS).2 := by
  simp [pyMain2, hc, hp, htd]

theorem pyMain2_full (env : Env) (a s c : String) (t : Int)
    (hc : env.timestampContents = some c) (hp : pyInt c = some t)
    (htd : env.testData = false) :
    pyMain2 env a s =
      finishRun env [Effect.createOutput (a ++ ".tar.xz")]
        (match env.fs s with
         | some n => runArchive env.removeNonessentialFiles t s "."
             (outputBasename env a) n
         | none => []) := by
  simp [pyMain2, hc, hp, htd]

/-- Every record in the archive of any run is __filter applied at the parsed
build timestamp to some raw record. -/
theorem pyMain_record (env : Env) (r : TarInfo) (hr : r ∈ (pyMain env).archive) :
    ∃ ts x, buildTimestamp env = some ts ∧ r = pyFilter ts x := by
  rcases ha : env.args with _ | ⟨a, _ | ⟨b, rest⟩⟩
  · rw [pyMain_usage env (by simp [ha])] at hr; simp at hr
  · by_cases hv : pyFalsy env.version = true
    · rw [pyMain_version env a ha hv] at hr; simp at hr
    · have hv' : pyFalsy env.version = false := by rwa [Bool.not_eq_true] at hv
      rcases hs : env.srcDir with _ | s
      · rw [pyMain_srcNone env a ha hv' hs] at hr; simp at hr
      · by_cases he : pathExists env s = true
        · rw [pyMain_run env a s ha hv' hs he] at hr
          rcases hc : env.timestampContents with _ | c
          · rw [pyMain2_ts_fail env a s hc] at hr; simp at hr
          · rcases hp : pyInt c with _ | t
            · rw [pyMain2_parse_fail env a s c hc hp] at hr; simp at hr
            · have hbt : buildTimestamp env = some t := by
                simp [buildTimestamp, hc, hp]
              by_cases htd : env.testData = true
              · rw [pyMain2_testData env a s c t hc hp htd,
                    finishRun_archive] at hr
                obtain ⟨x, hx⟩ :=
                  testDataLoop_record env s (outputBasename env a) t TEST_DIRS r hr
                exact ⟨t, x, hbt, hx⟩
              · have htd' : env.testData = false := by
                  rwa [Bool.not_eq_true] at htd
                rw [pyMain2_full env a s c t hc hp htd', finishRun_archive] at hr
                rcases hfs : env.fs s with _ | n
                · rw [hfs] at hr; simp at hr
                · rw [hfs] at hr
                  obtain ⟨x, hx⟩ := mem_runArchive_record hr
                  exact ⟨t, x, hbt, hx⟩
        · have he' : pathExists env s = false := by rwa [Bool.not_eq_true] at he
          rw [pyMain_srcMissing env a s ha hv' hs he'] at hr; simp at hr
  · rw [pyMain_usage env (by simp [ha])] at hr; simp at hr

theorem testDataLoop_archive_eq (env : Env) (src base : String) (ts : Int) :
    ∀ l : List String,
      (testDataLoop env src base ts l).2 =
        (l.filter fun d => isDirAt env (pathJoin src d)).flatMap
          (dirArchive env src base ts)
  | [] => rfl
  | d :: ds => by
      rw [testDataLoop, List.filter_cons]
      rcases hfs : env.fs (pathJoin src d) with _ | n
      · have hd : isDirAt env (pathJoin src d) = false := by simp [isDirAt, hfs]
        simpa [hd] using testDataLoop_archive_eq env src base ts ds
      · cases n with
        | file nm m =>
            have hd : isDirAt env (pathJoin src d) = false := by
              simp [isDirAt, hfs]
            simpa [hd] using testDataLoop_archive_eq env src base ts ds
        | symlink nm m te tif =>
            have hd : isDirAt env (pathJoin src d) = false := by
              simp [isDirAt, hfs]
            simpa [hd] using testDataLoop_archive_eq env src base ts ds
        | dirNode nm m cs =>
            have hd : isDirAt env (pathJoin src d) = true := by simp [isDirAt, hfs]
            simp [hd, dirArchive, hfs, testDataLoop_archive_eq env src base ts ds]

theorem testDataLoop_missing_msg (env : Env) (src base : String) (ts : Int) :
    ∀ (l : List String) (d : String), d ∈ l →
      isDirAt env (pathJoin src d) = false →
      Effect.message ("\"" ++ pathJoin src d ++ "\" not present; skipping.") ∈
        (testDataLoop env src base ts l).1
  | [], d, hd, _ => absurd hd (List.not_mem_nil d)
  | d0 :: ds, d, hd, hmiss => by
      rw [testDataLoop]
      rcases List.mem_cons.1 hd with rfl | hd2
      · rcases hfs : env.fs (pathJoin src d) with _ | n
        · simp
        · cases n with
          | file nm m => simp
          | symlink nm m te tif => simp
          | dirNode nm m cs => simp [isDirAt, hfs] at hmiss
      · have ih := testDataLoop_missing_msg env src base ts ds d hd2 hmiss
        rcases hfs : env.fs (pathJoin src d0) with _ | n
        · exact List.mem_cons_of_mem _ ih
        · cases n with
          | file nm m => exact List.mem_cons_of_mem _ ih
          | symlink nm m te tif => exact List.mem_cons_of_mem _ ih
          | dirNode nm m cs => exact ih

/-- C4: __filter rewrites every record to carry the build timestamp, numeric
uid/gid 0, owner/group names "0", and the original mode bits with the
owner-write bit (0o200, bit 7) OR'd in and every other bit unchanged; and
every record actually written by a run carries uid/gid 0, names "0", and an
mtime equal to the single timestamp parsed from the timestamp file. -/
theorem c4_normalized_metadata (env : Env) (r : TarInfo)
    (hr : r ∈ (pyMain env).archive) (ts : Int) (ti : TarInfo) :
    (pyFilter ts ti).mtime = ts ∧ (pyFilter ts ti).uid = 0 ∧
    (pyFilter ts ti).gid = 0 ∧ (pyFilter ts ti).uname = "0" ∧
    (pyFilter ts ti).gname = "0" ∧
    (pyFilter ts ti).mode = (ti.mode ||| 128) ∧
    (∀ k, k ≠ 7 → ((pyFilter ts ti).mode).testBit k = ti.mode.testBit k) ∧
    buildTimestamp env = some r.mtime ∧
    r.uid = 0 ∧ r.gid = 0 ∧ r.uname = "0" ∧ r.gname = "0" := by
  obtain ⟨ts0, x, hbt, hx⟩ := pyMain_record env r hr
  subst hx
  refine ⟨rfl, rfl, rfl, rfl, rfl, rfl, ?_, hbt, rfl, rfl, rfl, rfl⟩
  intro k hk
  show (ti.mode ||| 128).testBit k = ti.mode.testBit k
  have h128 : (128 : Nat) = 2 ^ 7 := by norm_num
  rw [Nat.testBit_lor, h128, Nat.testBit_two_pow_of_ne (Ne.symm hk),
    Bool.or_false]

/-- Witness for C4 on a concrete run over a one-file tree. -/
theorem c4_normalized_metadata_witness :
    (pyFilter 5 (rawInfo "n" treeC4)).mtime = 5 ∧
    (pyFilter 5 (rawInfo "n" treeC4)).uname = "0" ∧
    (pyFilter 5 (rawInfo "n" treeC4)).mode.testBit 2 =
      (rawInfo "n" treeC4).mode.testBit 2 ∧
    buildTimestamp envC4 = some rC4.mtime ∧ rC4.uid = 0 :=
  have h := c4_normalized_metadata envC4 rC4 (by decide) 5 (rawInfo "n" treeC4)
  ⟨h.1, h.2.2.2.1, h.2.2.2.2.2.2.1 2 (by decide), h.2.2.2.2.2.2.2.1,
   h.2.2.2.2.2.2.2.2.1⟩

/-- C5 as amended: usage errors (wrong positional-argument count, missing
--version) and a missing source directory are detected before any work and
produce no output file; an unreadable timestamp file also stops the run
before any entry is archived, but only after the output file has already
been opened for writing, so an (empty) output file is left on disk. -/
theorem c5_amended_early_failures (env : Env) :
    (env.args.length ≠ 1 →
      (pyMain env).exit = Except.ok 1 ∧ noOutputCreated env) ∧
    (∀ a, env.args = [a] → pyFalsy env.version = true →
      (pyMain env).exit = Except.ok 1 ∧ noOutputCreated env) ∧
    (∀ a s, env.args = [a] → pyFalsy env.version = false → env.srcDir = some s →
      pathExists env s = false →
      (pyMain env).exit = Except.ok 1 ∧ noOutputCreated env) ∧
    (∀ a s, env.args = [a] → pyFalsy env.version = false → env.srcDir = some s →
      pathExists env s = true → env.timestampContents = none →
      (pyMain env).exit = Except.error PyError.ioError ∧
      (pyMain env).archive = [] ∧
      Effect.createOutput (a ++ ".tar.xz") ∈ (pyMain env).effects) := by
  refine ⟨?_, ?_, ?_, ?_⟩
  · intro h
    refine ⟨by simp [pyMain_usage env h], ?_⟩
    intro p hp
    rw [pyMain_usage env h] at hp
    simp at hp
  · intro a ha hv
    refine ⟨by simp [pyMain_version env a ha hv], ?_⟩
    intro p hp
    rw [pyMain_version env a ha hv] at hp
    simp at hp
  · intro a s ha hv hs he
    refine ⟨by simp [pyMain_srcMissing env a s ha hv hs he], ?_⟩
    intro p hp
    rw [pyMain_srcMissing env a s ha hv hs he] at hp
    simp at hp
  · intro a s ha hv hs he hc
    rw [pyMain_run env a s ha hv hs he, pyMain2_ts_fail env a s hc]
    exact ⟨rfl, rfl, by simp⟩

/-- C5 counterexample: with valid arguments, version and source directory
but an unreadable timestamp file, the run fails before any entry is walked
(empty archive), yet the output file out.tar.xz has already been created, so
"no output file is produced on disk" is false for this environment-error
case. -/
theorem c5_counterexample :
    (pyMain envC5).exit = Except.error PyError.ioError ∧
    (pyMain envC5).archive = [] ∧
    Effect.createOutput "out.tar.xz" ∈ (pyMain envC5).effects := by
  decide

/-- Witness for the amended C5 at the concrete environment envC5. -/
theorem c5_amended_early_failures_witness :
    (pyMain envC5).exit = Except.error PyError.ioError ∧
    (pyMain envC5).archive = [] ∧
    Effect.createOutput ("out" ++ ".tar.xz") ∈ (pyMain envC5).effects :=
  (c5_amended_early_failures envC5).2.2.2 "out" "/s" rfl (by decide) rfl
    (by decide) rfl

/-- C6: the process exit status is 0 on success and 1 for a wrong number of
positional arguments, a missing or empty --version, a missing --src-dir flag
(which surfaces as an uncaught TypeError from os.path.exists(None)), a
source directory missing on disk, and a nonzero xz exit, in which last case
the failure message is printed and the output file has been created. -/
theorem c6_exit_codes (env : Env) :
    (env.args.length ≠ 1 → processExit env = 1) ∧
    (∀ a, env.args = [a] → pyFalsy env.version = true → processExit env = 1) ∧
    (∀ a, env.args = [a] → pyFalsy env.version = false → env.srcDir = none →
      processExit env = 1) ∧
    (∀ a s, env.args = [a] → pyFalsy env.version = false → env.srcDir = some s →
      pathExists env s = false → processExit env = 1) ∧
    (∀ a s c t, env.args = [a] → pyFalsy env.version = false →
      env.srcDir = some s → pathExists env s = true →
      env.timestampContents = some c → pyInt c = some t → env.xzExitCode ≠ 0 →
      processExit env = 1 ∧
      Effect.message "xz -9 failed!" ∈ (pyMain env).effects ∧
      Effect.createOutput (a ++ ".tar.xz") ∈ (pyMain env).effects) ∧
    (∀ a s c t, env.args = [a] → pyFalsy env.version = false →
      env.srcDir = some s → pathExists env s = true →
      env.timestampContents = some c → pyInt c = some t → env.xzExitCode = 0 →
      processExit env = 0) := by
  refine ⟨?_, ?_, ?_, ?_, ?_, ?_⟩
  · intro h
    simp [processExit, pyMain_usage env h]
  · intro a ha hv
    simp [processExit, pyMain_version env a ha hv]
  · intro a ha hv hs
    simp [processExit, pyMain_srcNone env a ha hv hs]
  · intro a s ha hv hs he
    simp [processExit, pyMain_srcMissing env a s ha hv hs he]
  · intro a s c t ha hv hs he hc hp hxz
    rw [processExit, pyMain_run env a s ha hv hs he]
    by_cases htd : env.testData = true
    · rw [pyMain2_testData env a s c t hc hp htd]
      exact ⟨by rw [finishRun_exit_fail env _ _ hxz],
        finishRun_msg_fail env _ _ hxz,
        finishRun_mem_of env _ _ _ (List.mem_cons_self _ _)⟩
    · have htd' : env.testData = false := by rwa [Bool.not_eq_true] at htd
      rw [pyMain2_full env a s c t hc hp htd']
      exact ⟨by rw [finishRun_exit_fail env _ _ hxz],
        finishRun_msg_fail env _ _ hxz,
        finishRun_mem_of env _ _ _ (List.mem_cons_self _ _)⟩
  · intro a s c t ha hv hs he hc hp hxz
    rw [processExit, pyMain_run env a s ha hv hs he]
    by_cases htd : env.testData = true
    · rw [pyMain2_testData env a s c t hc hp htd,
        finishRun_exit_ok env _ _ hxz]
    · have htd' : env.testData = false := by rwa [Bool.not_eq_true] at htd
      rw [pyMain2_full env a s c t hc hp htd', finishRun_exit_ok env _ _ hxz]

/-- Witness for C6 at a run whose xz subprocess exits with code 2. -/
theorem c6_exit_codes_witness :
    processExit envC6 = 1 ∧
    Effect.message "xz -9 failed!" ∈ (pyMain envC6).effects ∧
    Effect.createOutput ("out" ++ ".tar.xz") ∈ (pyMain envC6).effects :=
  (c6_exit_codes envC6).2.2.2.2.1 "out" "/s" "123" 123 rfl (by decide) rfl
    (by decide) rfl (by decide) (by decide)

/-- C8: in test-data mode, configured test directories missing on disk are
each reported with a skip message and passed over without failing the run:
with a working xz the run exits 0 and the archive is exactly the
concatenation of the walks of the test directories that do exist, each
rooted under basename/dir. -/
theorem c8_test_data_mode (env : Env) (a s c : String) (t : Int)
    (ha : env.args = [a]) (hv : pyFalsy env.version = false)
    (hs : env.srcDir = some s) (he : pathExists env s = true)
    (hc : env.timestampContents = some c) (hp : pyInt c = some t)
    (htd : env.testData = true) (hxz : env.xzExitCode = 0) :
    (pyMain env).exit = Except.ok 0 ∧
    (∀ d, d ∈ TEST_DIRS → isDirAt env (pathJoin s d) = false →
      Effect.message ("\"" ++ pathJoin s d ++ "\" not present; skipping.") ∈
        (pyMain env).effects) ∧
    (pyMain env).archive =
      (TEST_DIRS.filter fun d => isDirAt env (pathJoin s d)).flatMap
        (dirArchive env s (outputBasename env a) t) := by
  rw [pyMain_run env a s ha hv hs he, pyMain2_testData env a s c t hc hp htd]
  refine ⟨finishRun_exit_ok env _ _ hxz, ?_, ?_⟩
  · intro d hd hmiss
    exact finishRun_mem_of env _ _ _
      (List.mem_cons_of_mem _
        (testDataLoop_missing_msg env s (outputBasename env a) t TEST_DIRS d hd hmiss))
  · rw [finishRun_archive]
    exact testDataLoop_archive_eq env s (outputBasename env a) t TEST_DIRS

/-- Witness for C8: only chrome/test/data exists; the run exits 0, a skip
message is shown for content/test/data, and the archive is the walk of
chrome/test/data rooted under out/chrome/test/data. -/
theorem c8_test_data_mode_witness :
    (pyMain envC8).exit = Except.ok 0 ∧
    Effect.message ("\"" ++ pathJoin "/s" "content/test/data" ++
        "\" not present; skipping.") ∈ (pyMain envC8).effects ∧
    (pyMain envC8).archive =
      (TEST_DIRS.filter fun d => isDirAt envC8 (pathJoin "/s" d)).flatMap
        (dirArchive envC8 "/s" (outputBasename envC8 "out") 99) :=
  have h := c8_test_data_mode envC8 "out" "/s" "99" 99 rfl (by decide) rfl
    (by decide) rfl (by decide) rfl rfl
  ⟨h.1, h.2.1 "content/test/data" (by decide) (by decide), h.2.2⟩

/-! ### Metadata-erasure invariance of the walk, for C9 -/

theorem nodeName_strip : ∀ n : FsNode, nodeName (stripNode n) = nodeName n
  | FsNode.file _ _ => rfl
  | FsNode.dirNode _ _ _ => rfl
  | FsNode.symlink _ _ _ _ => rfl

theorem strip_insertFs (c : FsNode) :
    ∀ l : FsList, stripList (insertFs c l) = insertFs (stripNode c) (stripList l)
  | FsList.nil => rfl
  | FsList.cons d ds => by
      by_cases h : strLe (nodeName c) (nodeName d) = true
      · simp [insertFs, h, nodeName_strip, stripList]
      · simp [insertFs, h, nodeName_strip, stripList, strip_insertFs c ds]

theorem strip_sortFs : ∀ l : FsList, stripList (sortFs l) = sortFs (stripList l)
  | FsList.nil => rfl
  | FsList.cons c cs => by
      rw [sortFs, strip_insertFs, strip_sortFs cs]
      rfl

mutual
theorem strip_sortTree : ∀ n : FsNode, stripNode (sortTree n) = sortTree (stripNode n)
  | FsNode.file nm m => rfl
  | FsNode.symlink nm m te tif => rfl
  | FsNode.dirNode nm m cs => by
      rw [sortTree, stripNode, strip_sortFs, strip_sortEach cs]
      rfl
theorem strip_sortEach : ∀ l : FsList, stripList (sortEach l) = sortEach (stripList l)
  | FsList.nil => rfl
  | FsList.cons c cs => by
      rw [sortEach, stripList, strip_sortTree c, strip_sortEach cs]
      rfl
end

mutual
theorem addEntry_strip (remove : Bool) (ts : Int) :
    ∀ (n : FsNode) (full rel arc : String),
      (addEntry remove full rel arc (stripNode n)).map (pyFilter ts) =
        (addEntry remove full rel arc n).map (pyFilter ts)
  | FsNode.file nm m, full, rel, arc => by
      have he : classify remove (nodeEntry full rel (FsNode.file nm (stripMeta m))) =
          classify remove (nodeEntry full rel (FsNode.file nm m)) := rfl
      rw [stripNode, addEntry, addEntry, he]
      cases classify remove (nodeEntry full rel (FsNode.file nm m)) with
      | EXCLUDE => rfl
      | INCLUDE => rfl
  | FsNode.symlink nm m te tif, full, rel, arc => by
      have he : classify remove
            (nodeEntry full rel (FsNode.symlink nm (stripMeta m) te tif)) =
          classify remove (nodeEntry full rel (FsNode.symlink nm m te tif)) := rfl
      rw [stripNode, addEntry, addEntry, he]
      cases classify remove (nodeEntry full rel (FsNode.symlink nm m te tif)) with
      | EXCLUDE => rfl
      | INCLUDE => rfl
  | FsNode.dirNode nm m cs, full, rel, arc => by
      have he : classify remove
            (nodeEntry full rel (FsNode.dirNode nm (stripMeta m) (stripList cs))) =
          classify remove (nodeEntry full rel (FsNode.dirNode nm m cs)) := rfl
      rw [stripNode, addEntry, addEntry, he]
      cases hc : classify remove (nodeEntry full rel (FsNode.dirNode nm m cs)) with
      | EXCLUDE => rfl
      | INCLUDE =>
          rw [List.map_cons, List.map_cons, addChildren_strip remove ts cs full rel arc]
          rfl
theorem addChildren_strip (remove : Bool) (ts : Int) :
    ∀ (l : FsList) (full rel arc : String),
      (addChildren remove full rel arc (stripList l)).map (pyFilter ts) =
        (addChildren remove full rel arc l).map (pyFilter ts)
  | FsList.nil, _, _, _ => rfl
  | FsList.cons c cs, full, rel, arc => by
      rw [stripList, addChildren, addChildren, List.map_append, List.map_append,
        nodeName_strip, addEntry_strip remove ts c _ _ _,
        addChildren_strip remove ts cs full rel arc]
end

/-- The archive stream does not depend on the ownership and mtime metadata
that __filter overwrites: walking the metadata-stripped tree gives the same
normalized records as walking the original. -/
theorem runArchive_strip (remove : Bool) (ts : Int) (full rel arc : String)
    (t : FsNode) :
    runArchive remove ts full rel arc (stripNode t) =
      runArchive remove ts full rel arc t := by
  unfold runArchive
  rw [← strip_sortTree, addEntry_strip remove ts (sortTree t) full rel arc]

/-- C9: runs are deterministic — equal environments (same options, same
filesystem, same timestamp file, same xz status) give identical results, with
no hidden state — and the archive stream is moreover invariant under changes
to the ownership/mtime metadata the normalizer overwrites: any two trees with
equal metadata-stripped forms (same names, shapes and permission bits)
produce byte-identical record streams. -/
theorem c9_reproducible_runs :
    (∀ env1 env2 : Env, env1 = env2 → pyMain env1 = pyMain env2) ∧
    (∀ (remove : Bool) (ts : Int) (full rel arc : String) (t1 t2 : FsNode),
      stripNode t1 = stripNode t2 →
      runArchive remove ts full rel arc t1 = runArchive remove ts full rel arc t2) := by
  refine ⟨fun env1 env2 h => by rw [h], ?_⟩
  intro remove ts full rel arc t1 t2 h
  rw [← runArchive_strip remove ts full rel arc t1, h,
    runArchive_strip remove ts full rel arc t2]

/-- Witness for C9: two checkouts of the same tree with different owners,
groups and mtimes (but equal permission bits) produce identical archive
streams, and a rerun of a fixed environment reproduces itself. -/
theorem c9_reproducible_runs_witness :
    metaOf tA ≠ metaOf tB ∧
    pyMain envC5 = pyMain envC5 ∧
    runArchive false 5 "/s" "." "b" tA = runArchive false 5 "/s" "." "b" tB :=
  ⟨by decide, c9_reproducible_runs.1 envC5 envC5 rfl,
   c9_reproducible_runs.2 false 5 "/s" "." "b" tA tB rfl⟩
